import Mathlib

/- Shallow embedding of the NetworkProtoFramework repository.

   The repository has two source modules:
   * transport.py — class Transport, a deadline-bound wrapper around a
     connected stream socket.  Its read loop is modelled below over an
     explicit trace of underlying recv outcomes with rational-valued time.
   * packet.py — the field-definition codec hierarchy (FixedLengthFD,
     VarLengthFD, IntFD, SerializableFD, ...) and the Packet container.
     Values are modelled by the inductive PyValue; a wire stream is a list
     of byte values (naturals below 256 in every intended use); Python
     exceptions are modelled by the PyErr type returned through
     Option/Except. -/

/- ===================== transport.py : Transport.read ==================== -/

/- One observed outcome of a single underlying socket.recv call inside
   Transport.read: either some bytes were returned, or the per-attempt
   timeout fired (socket.timeout).  elapsed is the wall-clock duration of
   the attempt, in the same (rational) unit as the configured timeouts. -/
inductive RecvEv where
  | data (chunk : List Nat) (elapsed : Rat)
  | timeout (elapsed : Rat)

/- How one call to Transport.read terminates.
   ok        — the 'return bytes(data)' path;
   timeoutErr — 'raise Timeout("Transport.read")';
   valueErr  — socket.settimeout(interval) with interval < 0: CPython's
               settimeout rejects negative values with ValueError, which is
               not a socket.error and therefore propagates uncaught;
   stuck     — the supplied recv trace ended before the call finished
               (the quantified theorems are conditioned on the outcome). -/
inductive ReadOutcome where
  | ok (bytes : List Nat)
  | timeoutErr
  | valueErr
  | stuck
  deriving DecidableEq

/- The socket state Transport.read interacts with: the currently active
   timeout (socket.gettimeout/settimeout) and the current monotonic time. -/
structure SockState where
  timeout : Rat
  now : Rat
  deriving DecidableEq

/- The body of Transport.read's while loop (transport.py lines 66-80),
   one recursion step per loop iteration, driven by the recv trace:

       data = bytearray()
       oldTimeout = self.socket.gettimeout()
       deadline = time.monotonic() + oldTimeout
       while len(data) < amount:
           try:
               data += self.socket.recv(amount)
           except socket.timeout:
               pass
           interval = deadline - time.monotonic()
           self.socket.settimeout(interval)
           if interval <= 0:
               self.socket.settimeout(oldTimeout)
               raise Timeout("Transport.read")
       self.socket.settimeout(oldTimeout)
       return bytes(data)

   Note settimeout(interval) is modelled faithfully to CPython: a negative
   argument raises ValueError (leaving the active timeout unchanged). -/
def readLoop (amount : Nat) (oldT deadline : Rat) :
    List RecvEv → List Nat → SockState → ReadOutcome × SockState
  | [], data, st =>
    if amount ≤ data.length then (.ok data, SockState.mk oldT st.now)
    else (.stuck, st)
  | ev :: rest, data, st =>
    if amount ≤ data.length then (.ok data, SockState.mk oldT st.now)
    else
      let step : List Nat × Rat :=
        match ev with
        | .data chunk e => (data ++ chunk, st.now + e)
        | .timeout e => (data, st.now + e)
      let data' := step.1
      let now' := step.2
      let interval := deadline - now'
      if interval < 0 then (.valueErr, SockState.mk st.timeout now')
      else if interval ≤ 0 then (.timeoutErr, SockState.mk oldT now')
      else readLoop amount oldT deadline rest data' (SockState.mk interval now')

/- Transport.read(amount): oldTimeout is the active timeout at call entry
   and the deadline is entry time + oldTimeout; then the loop runs. -/
def Transport.read (amount : Nat) (evs : List RecvEv) (st : SockState) :
    ReadOutcome × SockState :=
  readLoop amount st.timeout (st.now + st.timeout) evs [] st

/- ===================== packet.py : values and errors ==================== -/

/- The Python values the modelled claims are about: None, int, bytes, and
   packet instances.  A packet instance carries the name of its concrete
   Packet subtype (Python type identity; distinct subtypes have distinct
   names) together with its per-field current values in declared order. -/
inductive PyValue where
  | pyNone : PyValue
  | pyInt : Int → PyValue
  | pyBytes : List Nat → PyValue
  | pyPacket : String → List PyValue → PyValue

/- The exceptions the modelled code can raise.
   assertFail     — a failed assert (checkValue violations, incomplete
                    packets, non-instance values);
   overflow       — OverflowError from int.to_bytes on a value that does
                    not fit the requested width/signedness;
   notEnoughData  — the transport could not supply the requested bytes
                    (transport.Timeout as seen by the packet layer);
   typeErr        — guard for states unreachable from the modelled code. -/
inductive PyErr where
  | assertFail
  | overflow
  | notEnoughData
  | typeErr
  deriving DecidableEq

inductive ByteOrder where
  | big
  | little
  deriving DecidableEq

/- The configuration of one IntFD instance: byte width, the optional
   min/max bounds (setMin/setMax), byte order (setOrder) and signedness
   (setSigned); defaults are big-endian unsigned with no bounds. -/
structure IntCfg where
  length : Nat
  min : Option Int
  max : Option Int
  order : ByteOrder
  signed : Bool
  deriving DecidableEq

/- The field-definition hierarchy of packet.py, restricted to the kinds
   the claims quantify over.  Each constructor carries the definition's
   name, its kind-specific configuration, and its default value (None
   when setDefault was never called, i.e. PyValue.pyNone).
   VarLengthFD carries the configuration of its internal IntFD length
   field (setMinLength/setMaxLength/setLengthOrder forward to it; its
   signedness is never touched and stays False).
   SerializableFD carries the referenced packet type: its name and its
   declared structure. -/
inductive FieldDef where
  | FixedLengthFD : String → Nat → PyValue → FieldDef
  | VarLengthFD : String → IntCfg → PyValue → FieldDef
  | IntFD : String → IntCfg → PyValue → FieldDef
  | SerializableFD : String → String → List FieldDef → PyValue → FieldDef

def FieldDef.name : FieldDef → String
  | .FixedLengthFD nm _ _ => nm
  | .VarLengthFD nm _ _ => nm
  | .IntFD nm _ _ => nm
  | .SerializableFD nm _ _ _ => nm

def FieldDef.default : FieldDef → PyValue
  | .FixedLengthFD _ _ d => d
  | .VarLengthFD _ _ d => d
  | .IntFD _ _ d => d
  | .SerializableFD _ _ _ d => d

def PyValue.isNone : PyValue → Bool
  | .pyNone => true
  | _ => false

/- ================= the transport as seen by the codecs ================== -/

/- Transport.write(data): the bytes are appended to the outgoing stream. -/
def tpWrite (out data : List Nat) : List Nat := out ++ data

/- Transport.read(amount) under its specified all-or-nothing contract, as
   the packet layer relies on it: exactly amount bytes are consumed from
   the incoming stream when available, else the call fails (Timeout). -/
def tpRead (amount : Nat) (inp : List Nat) : Except PyErr (List Nat × List Nat) :=
  if amount ≤ inp.length then .ok (inp.take amount, inp.drop amount)
  else .error .notEnoughData

/- ===================== integer wire encoding ============================ -/

/- Big-endian base-256 digits of n, exactly L bytes (n.to_bytes(L, "big")
   for n already known to fit). -/
def natToBytesBE : Nat → Nat → List Nat
  | 0, _ => []
  | L + 1, n => natToBytesBE L (n / 256) ++ [n % 256]

/- Little-endian base-256 digits of n, exactly L bytes. -/
def natToBytesLE : Nat → Nat → List Nat
  | 0, _ => []
  | L + 1, n => n % 256 :: natToBytesLE L (n / 256)

def natToBytes (order : ByteOrder) (L : Nat) (n : Nat) : List Nat :=
  match order with
  | .big => natToBytesBE L n
  | .little => natToBytesLE L n

/- Whether int.to_bytes(L, order, signed=sgn) succeeds on v: unsigned
   needs 0 ≤ v < 256^L, signed needs -(256^L)/2 ≤ v < (256^L)/2 (written
   with 2*v to stay in integers). -/
def intFits (L : Nat) (sgn : Bool) (v : Int) : Bool :=
  if sgn then decide (-((256 : Int) ^ L) ≤ 2 * v) && decide (2 * v < (256 : Int) ^ L)
  else decide (0 ≤ v) && decide (v < (256 : Int) ^ L)

/- v.to_bytes(L, order, signed=sgn): the two's-complement L-byte encoding
   when v fits, OverflowError (none) otherwise. -/
def intToBytes (L : Nat) (order : ByteOrder) (sgn : Bool) (v : Int) : Option (List Nat) :=
  if intFits L sgn v then some (natToBytes order L ((v % ((256 : Int) ^ L)).toNat))
  else none

def natFromBytesBE (bs : List Nat) : Nat :=
  bs.foldl (fun a b => a * 256 + b) 0

/- int.from_bytes(bs, order, signed=sgn). -/
def intFromBytes (order : ByteOrder) (sgn : Bool) (bs : List Nat) : Int :=
  let u : Nat := natFromBytesBE (match order with | .big => bs | .little => bs.reverse)
  if sgn && decide ((256 : Int) ^ bs.length ≤ 2 * (u : Int)) then
    (u : Int) - (256 : Int) ^ bs.length
  else (u : Int)

/- ===================== the concrete codecs ============================== -/

namespace FixedLengthFD

/- FixedLengthFD.checkValue: a byte sequence of exactly the declared
   length (Python accepts bytes and bytearray; both are pyBytes here). -/
def checkValue (length : Nat) (v : PyValue) : Bool :=
  match v with
  | .pyBytes bs => bs.length == length
  | _ => false

/- FixedLengthFD.write: assert self.checkValue(value); tp.write(value). -/
def write (length : Nat) (v : PyValue) (out : List Nat) : Option PyErr × List Nat :=
  if checkValue length v then
    match v with
    | .pyBytes bs => (none, tpWrite out bs)
    | _ => (some .typeErr, out)
  else (some .assertFail, out)

/- FixedLengthFD.read: value = tp.read(self.length); assert checkValue. -/
def read (length : Nat) (inp : List Nat) : Except PyErr (PyValue × List Nat) := do
  let (bs, rest) ← tpRead length inp
  let value := PyValue.pyBytes bs
  if checkValue length value then .ok (value, rest) else .error .assertFail

end FixedLengthFD

namespace IntFD

/- IntFD.checkValue: isinstance(value, int) and (min is None or
   min <= value) and (max is None or value < max). -/
def checkValue (cfg : IntCfg) (v : PyValue) : Bool :=
  match v with
  | .pyInt n =>
    (match cfg.min with | none => true | some m => decide (m ≤ n)) &&
    (match cfg.max with | none => true | some M => decide (n < M))
  | _ => false

/- IntFD.write: assert self.checkValue(value); then
   self.innerFD.write(value.to_bytes(self.innerFD.length, self.order,
   signed=self.signed), tp) — where innerFD is the FixedLengthFD of the
   configured byte width, and to_bytes can raise OverflowError. -/
def write (cfg : IntCfg) (v : PyValue) (out : List Nat) : Option PyErr × List Nat :=
  if checkValue cfg v then
    match v with
    | .pyInt n =>
      match intToBytes cfg.length cfg.order cfg.signed n with
      | some bs => FixedLengthFD.write cfg.length (.pyBytes bs) out
      | none => (some .overflow, out)
    | _ => (some .typeErr, out)
  else (some .assertFail, out)

/- IntFD.read: value = int.from_bytes(self.innerFD.read(tp), self.order,
   signed=self.signed); assert self.checkValue(value). -/
def read (cfg : IntCfg) (inp : List Nat) : Except PyErr (PyValue × List Nat) := do
  let (bv, rest) ← FixedLengthFD.read cfg.length inp
  match bv with
  | .pyBytes bs =>
    let value := PyValue.pyInt (intFromBytes cfg.order cfg.signed bs)
    if checkValue cfg value then .ok (value, rest) else .error .assertFail
  | _ => .error .typeErr

end IntFD

namespace VarLengthFD

/- VarLengthFD.checkValue: isinstance(value, (bytes, bytearray)) — any
   byte sequence; length bounds are left to the internal length field. -/
def checkValue (v : PyValue) : Bool :=
  match v with
  | .pyBytes _ => true
  | _ => false

/- VarLengthFD.write: assert self.checkValue(value);
   self.lengthFD.write(len(value), tp); tp.write(value). -/
def write (cfg : IntCfg) (v : PyValue) (out : List Nat) : Option PyErr × List Nat :=
  if checkValue v then
    match v with
    | .pyBytes bs =>
      match IntFD.write cfg (.pyInt bs.length) out with
      | (none, out') => (none, tpWrite out' bs)
      | (some e, out') => (some e, out')
    | _ => (some .typeErr, out)
  else (some .assertFail, out)

/- VarLengthFD.read: length = self.lengthFD.read(tp); value =
   tp.read(length); assert self.checkValue(value).  A negative decoded
   length (possible only for a signed length field) makes the Python read
   loop return the empty byte sequence at once, which toNat mirrors. -/
def read (cfg : IntCfg) (inp : List Nat) : Except PyErr (PyValue × List Nat) := do
  let (lv, rest) ← IntFD.read cfg inp
  match lv with
  | .pyInt n => do
    let (bs, rest') ← tpRead n.toNat rest
    let value := PyValue.pyBytes bs
    if checkValue value then .ok (value, rest') else .error .assertFail
  | _ => .error .typeErr

end VarLengthFD

namespace SerializableFD

/- SerializableFD.checkValue: isinstance(value, self.packetType), i.e.
   the value is a packet instance of precisely that type. -/
def checkValue (ptName : String) (v : PyValue) : Bool :=
  match v with
  | .pyPacket tn _ => tn == ptName
  | _ => false

end SerializableFD

/- ===================== Packet and Field ================================= -/

/- Packet.isComplete: False iff some field's current value is None. -/
def Packet.isComplete (vals : List PyValue) : Bool :=
  vals.all fun v => !v.isNone

mutual

/- FieldDef.write dispatches to the concrete kind's write.  The
   SerializableFD case is SerializableFD.write followed inline by the
   nested value's own Packet.write (packet.py lines 337-340: assert
   self.isComplete(); then each field in declared order): assert
   isinstance(value, packetType); value.write(tp). -/
def FieldDef.write : FieldDef → PyValue → List Nat → Option PyErr × List Nat
  | .FixedLengthFD _ len _, v, out => FixedLengthFD.write len v out
  | .VarLengthFD _ cfg _, v, out => VarLengthFD.write cfg v out
  | .IntFD _ cfg _, v, out => IntFD.write cfg v out
  | .SerializableFD _ ptName ptStruct _, v, out =>
    if SerializableFD.checkValue ptName v then
      match v with
      | .pyPacket _ vs =>
        if Packet.isComplete vs then writeFields ptStruct vs out
        else (some .assertFail, out)
      | _ => (some .typeErr, out)
    else (some .assertFail, out)

/- Packet.write's field loop: for field in self.__fields__.values():
   field.write(tp) — each Field.write delegates to its definition with
   the field's current value, strictly in declared order; an exception
   keeps the bytes already sent. -/
def writeFields : List FieldDef → List PyValue → List Nat → Option PyErr × List Nat
  | [], _, out => (none, out)
  | fd :: fds, vs, out =>
    match vs with
    | [] => (some .typeErr, out)
    | v :: vtl =>
      match FieldDef.write fd v out with
      | (none, out') => writeFields fds vtl out'
      | (some e, out') => (some e, out')

end

mutual

/- FieldDef.read dispatches to the concrete kind's read.  In the
   SerializableFD case (packet.py lines 264-271):
       value = self.packetType().read(tp)
       assert self.checkValue(value)
   packetType() builds a fresh instance and its Packet.read consumes the
   nested fields from the transport mutating the instance — but
   Packet.read has no return statement, so the Python local value is
   bound to None, not to the instance. -/
def FieldDef.read : FieldDef → List Nat → Except PyErr (PyValue × List Nat)
  | .FixedLengthFD _ len _, inp => FixedLengthFD.read len inp
  | .VarLengthFD _ cfg _, inp => VarLengthFD.read cfg inp
  | .IntFD _ cfg _, inp => IntFD.read cfg inp
  | .SerializableFD _ ptName ptStruct _, inp => do
    let (_newVals, rest) ← readFields ptStruct inp
    let value := PyValue.pyNone
    if SerializableFD.checkValue ptName value then .ok (value, rest)
    else .error .assertFail

/- Packet.read's field loop (packet.py lines 342-344): for each declared
   field in order, field.read(tp) assigns the decoded value; the list of
   new values is the mutation this models. -/
def readFields : List FieldDef → List Nat → Except PyErr (List PyValue × List Nat)
  | [], inp => .ok ([], inp)
  | fd :: fds, inp => do
    let (v, rest) ← FieldDef.read fd inp
    let (vs, rest') ← readFields fds rest
    .ok (v :: vs, rest')

end

/- Packet.write (packet.py lines 337-340): assert self.isComplete();
   then write every field in declared order. -/
def Packet.write (struct : List FieldDef) (vals : List PyValue) (out : List Nat) :
    Option PyErr × List Nat :=
  if Packet.isComplete vals then writeFields struct vals out
  else (some .assertFail, out)

/- Packet.read (packet.py lines 342-344) applied to a fresh instance:
   the resulting field values and remaining stream. -/
def Packet.read (struct : List FieldDef) (inp : List Nat) :
    Except PyErr (List PyValue × List Nat) :=
  readFields struct inp

/- Field.__init__ (packet.py lines 28-34): the current value starts as
   the definition's default; a definition whose setDefault was never
   called has default None, so the fresh value is the absent marker. -/
def Field.init (d : FieldDef) : PyValue := d.default

/- Packet.__init__ without initial values: one Field per declared
   definition, in declared order, each starting at its default. -/
def Packet.freshVals (struct : List FieldDef) : List PyValue :=
  struct.map Field.init

/- Packet.hasField: whether the name is declared on this type. -/
def Packet.hasField (struct : List FieldDef) (nm : String) : Bool :=
  struct.any fun fd => fd.name == nm

/- Packet.setField: self.__fields__[name].value = value; none models the
   KeyError on an undeclared name.  Declared names are unique (asserted
   at construction), so replacing the first match is exact. -/
def Packet.setField (struct : List FieldDef) (vals : List PyValue) (nm : String)
    (v : PyValue) : Option (List PyValue) :=
  match struct, vals with
  | fd :: fds, w :: ws =>
    if fd.name = nm then some (v :: ws)
    else
      match Packet.setField fds ws nm v with
      | some ws' => some (w :: ws')
      | none => none
  | _, _ => none

/- Packet.getField (asValue=True): the named field's current value. -/
def Packet.getField (struct : List FieldDef) (vals : List PyValue) (nm : String) :
    Option PyValue :=
  match struct, vals with
  | fd :: fds, w :: ws =>
    if fd.name = nm then some w else Packet.getField fds ws nm
  | _, _ => none

/- ========================= theorems: transport ========================== -/

/- Helper: the read loop restores the entry timeout on both exits the
   source restores it on — the success return and the raise-Timeout
   branch (transport.py lines 77-80). -/
theorem readLoop_restore (amount : Nat) (oldT deadline : Rat) :
    ∀ (evs : List RecvEv) (data : List Nat) (st : SockState),
      ((∃ bs, (readLoop amount oldT deadline evs data st).1 = ReadOutcome.ok bs) ∨
        (readLoop amount oldT deadline evs data st).1 = ReadOutcome.timeoutErr) →
      (readLoop amount oldT deadline evs data st).2.timeout = oldT := by
  intro evs
  induction evs with
  | nil =>
    intro data st h
    by_cases hc : amount ≤ data.length
    · simp [readLoop, hc]
    · simp [readLoop, hc] at h
  | cons ev rest ih =>
    intro data st h
    by_cases hc : amount ≤ data.length
    · simp [readLoop, hc]
    · cases ev with
      | data chunk e =>
        by_cases h1 : deadline - (st.now + e) < 0
        · simp [readLoop, hc, h1] at h
        · by_cases h2 : deadline - (st.now + e) ≤ 0
          · simp [readLoop, hc, h1, h2]
          · simp only [readLoop, hc, if_false, h1, h2] at h ⊢
            exact ih _ _ h
      | timeout e =>
        by_cases h1 : deadline - (st.now + e) < 0
        · simp [readLoop, hc, h1] at h
        · by_cases h2 : deadline - (st.now + e) ≤ 0
          · simp [readLoop, hc, h1, h2]
          · simp only [readLoop, hc, if_false, h1, h2] at h ⊢
            exact ih _ _ h

/-- C7: Transport.read restores the socket's active timeout to its
pre-call value on every exit the spec describes: whenever the call
returns successfully or raises Timeout, the active timeout afterwards
equals the active timeout at call entry. -/
theorem transport_read_restores_timeout (amount : Nat) (evs : List RecvEv) (st : SockState)
    (h : (∃ bs, (Transport.read amount evs st).1 = ReadOutcome.ok bs) ∨
      (Transport.read amount evs st).1 = ReadOutcome.timeoutErr) :
    (Transport.read amount evs st).2.timeout = st.timeout :=
  readLoop_restore amount st.timeout (st.now + st.timeout) evs [] st h

/-- Witness for C7 at a concrete input: reading one byte that arrives at
once succeeds and leaves the active timeout at its entry value. -/
theorem transport_read_restores_timeout_witness :
    (Transport.read 1 [RecvEv.data [9] 0] (SockState.mk 1 0)).2.timeout =
      (SockState.mk 1 0).timeout :=
  transport_read_restores_timeout 1 [RecvEv.data [9] 0] (SockState.mk 1 0)
    (Or.inl ⟨[9], by simp [Transport.read, readLoop]; norm_num⟩)

/-- C1: the claim states every returning Transport.read(amount) call
returns exactly amount bytes.  The read(0) half holds: read 0 returns
the empty byte sequence at once, independent of the recv trace.  The
exact-amount half is a code bug: the loop body calls recv(amount)
instead of recv(amount - len(data)), so after a partial delivery a later
recv may over-fill the buffer — with amount = 4, deliveries of 2 then 4
bytes make the call return 6 bytes. -/
theorem transport_read_amount_bug :
    (∀ (evs : List RecvEv) (st : SockState),
      Transport.read 0 evs st = (ReadOutcome.ok [], SockState.mk st.timeout st.now)) ∧
    (Transport.read 4 [RecvEv.data [1, 2] 0, RecvEv.data [3, 4, 5, 6] 0]
        (SockState.mk 1 0)).1 = ReadOutcome.ok [1, 2, 3, 4, 5, 6] := by
  constructor
  · intro evs st
    cases evs <;> simp [Transport.read, readLoop]
  · simp [Transport.read, readLoop]
    norm_num

/-- C6: the claim states that when the deadline passes with too few bytes
accumulated, Transport.read raises Timeout and no other error.  Code
bug: when a recv attempt overshoots the deadline (here by 1/10 of a
time unit), interval = deadline - now is negative and
socket.settimeout(interval) raises ValueError — which is not a
socket.error — before the Timeout branch is reached. -/
theorem transport_read_deadline_value_error :
    (Transport.read 1 [RecvEv.timeout (11 / 10)] (SockState.mk 1 0)).1 =
      ReadOutcome.valueErr := by
  simp [Transport.read, readLoop]
  norm_num

/- ========================= theorems: packet layer ======================= -/

/- Helper characterisation of IntFD.checkValue, shared by the bound
   theorems below. -/
theorem IntFD.checkValue_spec (cfg : IntCfg) (v : PyValue) :
    IntFD.checkValue cfg v = true ↔
      ∃ n : Int, v = PyValue.pyInt n ∧
        (cfg.min = none ∨ ∃ m, cfg.min = some m ∧ m ≤ n) ∧
        (cfg.max = none ∨ ∃ M, cfg.max = some M ∧ n < M) := by
  cases v with
  | pyInt n =>
    cases hm : cfg.min <;> cases hM : cfg.max <;>
      simp [IntFD.checkValue, hm, hM]
  | pyNone => simp [IntFD.checkValue]
  | pyBytes bs => simp [IntFD.checkValue]
  | pyPacket tn vs => simp [IntFD.checkValue]

/-- C4: for every IntFD configuration and candidate value v,
checkValue(v) is true iff v is an integer, the minimum is unset or
min ≤ v, and the maximum is unset or v < max — minimum inclusive,
maximum exclusive. -/
theorem intFD_checkValue_min_inclusive_max_exclusive (cfg : IntCfg) (v : PyValue) :
    IntFD.checkValue cfg v = true ↔
      ∃ n : Int, v = PyValue.pyInt n ∧
        (cfg.min = none ∨ ∃ m, cfg.min = some m ∧ m ≤ n) ∧
        (cfg.max = none ∨ ∃ M, cfg.max = some M ∧ n < M) :=
  IntFD.checkValue_spec cfg v

/-- C3: writing a packet with at least one absent field value raises the
incomplete-packet fault (the failed assert isComplete) and leaves the
outgoing stream unchanged — no bytes are written. -/
theorem packet_write_incomplete (struct : List FieldDef) (vals : List PyValue)
    (out : List Nat) (h : ∃ v ∈ vals, v = PyValue.pyNone) :
    Packet.write struct vals out = (some PyErr.assertFail, out) := by
  have hic : Packet.isComplete vals = false := by
    obtain ⟨v, hv, rfl⟩ := h
    simp only [Packet.isComplete, List.all_eq_false]
    exact ⟨PyValue.pyNone, hv, by simp [PyValue.isNone]⟩
  simp [Packet.write, hic]

/-- Witness for C3 at a concrete input: a one-field packet whose field is
absent fails to write and sends nothing. -/
theorem packet_write_incomplete_witness :
    Packet.write [FieldDef.FixedLengthFD "a" 1 PyValue.pyNone] [PyValue.pyNone] [] =
      (some PyErr.assertFail, []) :=
  packet_write_incomplete _ _ _ ⟨PyValue.pyNone, by simp, rfl⟩

/-- C9: a successful setField(name, None) reverts the named field to the
absent state — the same None marker a default-less fresh field starts
with — so the packet is no longer complete and the field's retrievable
value is None. -/
theorem packet_setField_none_reverts (struct : List FieldDef) (vals vals' : List PyValue)
    (nm : String) (h : Packet.setField struct vals nm PyValue.pyNone = some vals') :
    Packet.isComplete vals' = false ∧
      Packet.getField struct vals' nm = some PyValue.pyNone := by
  induction struct generalizing vals vals' with
  | nil => simp [Packet.setField] at h
  | cons fd fds ih =>
    cases vals with
    | nil => simp [Packet.setField] at h
    | cons w ws =>
      by_cases hn : fd.name = nm
      · simp only [Packet.setField, hn, if_true, Option.some.injEq] at h
        subst h
        refine ⟨by simp [Packet.isComplete, PyValue.isNone], ?_⟩
        simp [Packet.getField, hn]
      · simp only [Packet.setField, hn, if_false] at h
        cases hs : Packet.setField fds ws nm PyValue.pyNone with
        | none => rw [hs] at h; exact absurd h (by simp)
        | some ws' =>
          rw [hs] at h
          simp only [Option.some.injEq] at h
          subst h
          obtain ⟨h1, h2⟩ := ih ws ws' hs
          refine ⟨?_, ?_⟩
          · simp only [Packet.isComplete, List.all_cons] at h1 ⊢
            simp [h1]
          · simp [Packet.getField, hn, h2]

/-- Witness for C9 at a concrete input: blanking the TPID field (default
17, currently 17) of a one-field packet makes it incomplete and its
value reads back as None. -/
theorem packet_setField_none_reverts_witness :
    Packet.isComplete [PyValue.pyNone] = false ∧
      Packet.getField
        [FieldDef.IntFD "TPID" (IntCfg.mk 1 none none ByteOrder.big false)
          (PyValue.pyInt 17)]
        [PyValue.pyNone] "TPID" = some PyValue.pyNone :=
  packet_setField_none_reverts _ [PyValue.pyInt 17] _ "TPID" rfl

/-- C10: for an IntFD of byte width L with no min/max configured,
checkValue accepts every integer, yet write raises OverflowError (not a
validation fault) on any integer that does not fit L bytes under the
configured signedness, writing no bytes. -/
theorem intFD_unbounded_write_overflow (L : Nat) (ord : ByteOrder) (sgn : Bool)
    (v : Int) (out : List Nat) (h : intFits L sgn v = false) :
    (∀ n : Int, IntFD.checkValue (IntCfg.mk L none none ord sgn) (PyValue.pyInt n) = true) ∧
      IntFD.write (IntCfg.mk L none none ord sgn) (PyValue.pyInt v) out =
        (some PyErr.overflow, out) := by
  constructor
  · intro n
    simp [IntFD.checkValue]
  · simp [IntFD.write, IntFD.checkValue, intToBytes, h]

/-- Witness for C10 at a concrete input: 256 does not fit one unsigned
byte, so the unbounded one-byte IntFD write raises OverflowError and
sends nothing. -/
theorem intFD_unbounded_write_overflow_witness :
    IntFD.write (IntCfg.mk 1 none none ByteOrder.big false) (PyValue.pyInt 256) [] =
      (some PyErr.overflow, []) :=
  (intFD_unbounded_write_overflow 1 ByteOrder.big false 256 [] (by decide)).2

/-- C2: the claim states a SerializableFD round trip returns a fresh
instance of the packet type equal to the written one.  Code bug: the
read side binds the Python local to Packet.read's return value, which is
None (Packet.read mutates in place and returns nothing), so checkValue
always fails and SerializableFD.read raises for every packet type and
every input — while the write side does emit the nested packet's bytes,
as the concrete evaluation records. -/
theorem serializableFD_read_never_returns :
    (∀ (nm ptName : String) (ptStruct : List FieldDef) (d : PyValue) (inp : List Nat),
      ∃ e, FieldDef.read (FieldDef.SerializableFD nm ptName ptStruct d) inp =
        Except.error e) ∧
    FieldDef.write
        (FieldDef.SerializableFD "inner" "TPkt"
          [FieldDef.FixedLengthFD "a" 1 PyValue.pyNone] PyValue.pyNone)
        (PyValue.pyPacket "TPkt" [PyValue.pyBytes [7]]) [] = (none, [7]) := by
  constructor
  · intro nm ptName ptStruct d inp
    cases hr : readFields ptStruct inp with
    | error e =>
      exact ⟨e, by simp only [FieldDef.read, hr, SerializableFD.checkValue]; rfl⟩
    | ok p =>
      exact ⟨PyErr.assertFail,
        by simp only [FieldDef.read, hr, SerializableFD.checkValue]; rfl⟩
  · decide

/-- C5: the claim states every complete, valid, successfully-encoding
packet round-trips: write then read on a fresh instance consuming
exactly those bytes reproduces the field values.  Code bug inherited
from SerializableFD.read (see C2): for a packet type with a nested
serializable field, write succeeds and emits the nested bytes, but read
on a fresh instance raises the failed checkValue assert instead of
yielding any values. -/
theorem packet_roundtrip_nested_fails :
    Packet.write
        [FieldDef.SerializableFD "sub" "Inner"
          [FieldDef.FixedLengthFD "x" 1 PyValue.pyNone] PyValue.pyNone]
        [PyValue.pyPacket "Inner" [PyValue.pyBytes [9]]] [] = (none, [9]) ∧
    Packet.read
        [FieldDef.SerializableFD "sub" "Inner"
          [FieldDef.FixedLengthFD "x" 1 PyValue.pyNone] PyValue.pyNone]
        [9] = Except.error PyErr.assertFail :=
  ⟨by decide, rfl⟩

/- Helper length lemmas: the integer encoders emit exactly L bytes. -/
theorem natToBytesBE_length (L n : Nat) : (natToBytesBE L n).length = L := by
  induction L generalizing n with
  | zero => rfl
  | succ K ih => simp [natToBytesBE, ih]

theorem natToBytesLE_length (L n : Nat) : (natToBytesLE L n).length = L := by
  induction L generalizing n with
  | zero => rfl
  | succ K ih => simp [natToBytesLE, ih]

theorem natToBytes_length (ord : ByteOrder) (L n : Nat) :
    (natToBytes ord L n).length = L := by
  cases ord <;> simp [natToBytes, natToBytesBE_length, natToBytesLE_length]

set_option maxRecDepth 4000 in
/-- C8 counterexample: the claim's "succeeds iff (m unset or m ≤ len) and
(M unset or len < M)" fails as stated: with both bounds unset the right
side holds for a 256-byte value, yet the write with a one-byte length
field fails — the length 256 does not fit the unsigned one-byte prefix
and int.to_bytes raises OverflowError (no bytes are sent). -/
theorem varLengthFD_write_bounds_cex :
    (IntCfg.mk 1 none none ByteOrder.big false).min = none ∧
    (IntCfg.mk 1 none none ByteOrder.big false).max = none ∧
    VarLengthFD.write (IntCfg.mk 1 none none ByteOrder.big false)
      (PyValue.pyBytes (List.replicate 256 0)) [] = (some PyErr.overflow, []) := by
  refine ⟨rfl, rfl, ?_⟩
  decide

/-- C8 amended: a VarLengthFD write of a byte sequence succeeds iff
(m unset or m ≤ len) and (M unset or len < M) and additionally len fits
the unsigned length prefix (len < 256^lengthFieldSize); every failing
write — bound violation or prefix overflow — sends no bytes. -/
theorem varLengthFD_write_length_bounds (m M : Option Int) (L : Nat) (ord : ByteOrder)
    (bs out : List Nat) :
    ((VarLengthFD.write (IntCfg.mk L m M ord false) (PyValue.pyBytes bs) out).1 = none ↔
      ((m = none ∨ ∃ mv, m = some mv ∧ mv ≤ (bs.length : Int)) ∧
        (M = none ∨ ∃ Mv, M = some Mv ∧ (bs.length : Int) < Mv) ∧
        (bs.length : Int) < (256 : Int) ^ L)) ∧
    ((VarLengthFD.write (IntCfg.mk L m M ord false) (PyValue.pyBytes bs) out).1 ≠ none →
      (VarLengthFD.write (IntCfg.mk L m M ord false) (PyValue.pyBytes bs) out).2 = out) := by
  have hspec :
      IntFD.checkValue (IntCfg.mk L m M ord false) (PyValue.pyInt (bs.length : Int)) = true ↔
        ((m = none ∨ ∃ mv, m = some mv ∧ mv ≤ (bs.length : Int)) ∧
          (M = none ∨ ∃ Mv, M = some Mv ∧ (bs.length : Int) < Mv)) := by
    rw [IntFD.checkValue_spec]
    simp
  by_cases hcv :
      IntFD.checkValue (IntCfg.mk L m M ord false) (PyValue.pyInt (bs.length : Int)) = true
  · by_cases hfit : intFits L false (bs.length : Int) = true
    · have hlt : (bs.length : Int) < (256 : Int) ^ L := by
        simp [intFits] at hfit
        exact hfit
      have hw : VarLengthFD.write (IntCfg.mk L m M ord false) (PyValue.pyBytes bs) out =
          (none,
            tpWrite
              (tpWrite out
                (natToBytes ord L (((bs.length : Int) % (256 : Int) ^ L).toNat))) bs) := by
        simp [VarLengthFD.write, VarLengthFD.checkValue, IntFD.write, hcv, intToBytes, hfit,
          FixedLengthFD.write, FixedLengthFD.checkValue, natToBytes_length]
      rw [hw]
      constructor
      · simp only [true_iff]
        exact ⟨(hspec.mp hcv).1, (hspec.mp hcv).2, hlt⟩
      · intro hne
        exact absurd rfl hne
    · have hlt : ¬ (bs.length : Int) < (256 : Int) ^ L := by
        simp [intFits] at hfit
        exact not_lt.mpr hfit
      have hw : VarLengthFD.write (IntCfg.mk L m M ord false) (PyValue.pyBytes bs) out =
          (some PyErr.overflow, out) := by
        simp [VarLengthFD.write, VarLengthFD.checkValue, IntFD.write, hcv, intToBytes, hfit]
      rw [hw]
      constructor
      · simp [hlt]
      · intro _
        rfl
  · have hw : VarLengthFD.write (IntCfg.mk L m M ord false) (PyValue.pyBytes bs) out =
        (some PyErr.assertFail, out) := by
      simp [VarLengthFD.write, VarLengthFD.checkValue, IntFD.write, hcv]
    rw [hw]
    constructor
    · constructor
      · intro h
        exact absurd h (by simp)
      · intro h
        exact absurd (hspec.mpr ⟨h.1, h.2.1⟩) hcv
    · intro _
      rfl

/-- Witness for the amended C8 theorem at a concrete input: a write
violating a configured minimum length of 5 fails and sends no bytes. -/
theorem varLengthFD_write_length_bounds_witness :
    (VarLengthFD.write (IntCfg.mk 1 (some 5) none ByteOrder.big false)
      (PyValue.pyBytes []) []).2 = [] :=
  (varLengthFD_write_length_bounds (some 5) none 1 ByteOrder.big [] []).2 (by decide)
